import Mathlib

/-!
Shallow embedding of `src/mca_chunk_inspector.py` (MCA-Chunk-Inspector).

Files are modelled as `List Nat` byte sequences (each element a byte value).
`f.seek(pos); f.read(n)` becomes `readAt file pos n`, which returns the
available bytes, possibly fewer than `n` near end-of-file, exactly like a
Python file read.  The two decompression library functions
(`gzip.decompress`, `zlib.decompress`) are external collaborators and are
passed in as oracles of type `Bytes → Option Bytes`, where `none` models a
raised exception.  Byte reads performed by the extraction routine are logged
as `(position, requestedLength)` pairs so that statements about which file
regions are touched can be made.
-/

set_option autoImplicit false
set_option maxRecDepth 4000

abbrev Bytes := List Nat

/-- Model of `f.seek(pos); f.read(n)`: the bytes of `file` from `pos`,
at most `n` of them (fewer when the file ends early). -/
def readAt (file : Bytes) (pos n : Nat) : Bytes :=
  (file.drop pos).take n

/-- Big-endian unsigned 32-bit decode of a 4-byte sequence,
`struct.unpack(">I", bs)[0]`.  (Only ever applied to 4-byte reads.) -/
def beU32 (bs : Bytes) : Nat :=
  match bs with
  | [a, b, c, d] => ((a * 256 + b) * 256 + c) * 256 + d
  | _ => 0

/-- The 1024 location records decoded from the first 4096 bytes of the
8192-byte header: `offsets` in `read_region_header`. -/
def regionOffsets (file : Bytes) : List Nat :=
  let header := readAt file 0 8192
  (List.range 1024).map (fun i => beU32 (readAt header (i * 4) 4))

/-- `read_region_header`: read the first 8192 bytes; if fewer are available
raise `IOError("Region header too short")` (modelled as `none`), otherwise
decode the 1024 location records. -/
def read_region_header (file : Bytes) : Option (List Nat) :=
  if (readAt file 0 8192).length < 8192 then none
  else some (regionOffsets file)

/-- `chunk_index(cx, cz)`: Python computes `(cx & 31) + (cz & 31) * 32`;
on arbitrary signed integers `cx & 31` is the nonnegative residue of `cx`
modulo 32 (two's-complement bitwise and with `2^5 - 1`), which is `Int.emod`
here since the modulus is positive. -/
def chunk_index (cx cz : Int) : Int :=
  cx % 32 + cz % 32 * 32

/-- Whether the pattern `pat` occurs in `block` starting at position `i`
(the per-position test of Python `bytes.find`). -/
def matchAt (pat block : Bytes) (i : Nat) : Bool :=
  decide (i + pat.length ≤ block.length) &&
  (List.range pat.length).all (fun j => block.getD (i + j) 0 == pat.getD j 0)

/-- Linear search for `pat` in `block` from position `i` upward.  The first
argument is fuel, kept at least `block.length - i` by every caller so the
loop never runs out before the scan completes; structural recursion on the
fuel keeps the function kernel-reducible. -/
def findFrom (pat block : Bytes) : Nat → Nat → Option Nat
  | 0, _ => none
  | fuel + 1, i =>
    if i < block.length then
      if matchAt pat block i then some i else findFrom pat block fuel (i + 1)
    else none

/-- Python `block.find(pat)`: index of the first occurrence of `pat` in
`block`, `none` for `-1`. -/
def findSub (pat block : Bytes) : Option Nat :=
  findFrom pat block block.length 0

/-- The loop body test at line 127-134 of the source: `block[off] == 0x78`,
a following byte exists, and that byte is one of the common zlib flag bytes
`0x9C`, `0x01`, `0xDA`. -/
def validZlibPair (block : Bytes) (off : Nat) : Bool :=
  block.getD off 0 == 0x78 &&
  decide (off + 1 < block.length) &&
  (block.getD (off + 1) 0 == 0x9c ||
   block.getD (off + 1) 0 == 0x01 ||
   block.getD (off + 1) 0 == 0xda)

/-- The `for off in range(z_pos, min(z_pos + 32, len(block)))` loop searching
for a zlib header pair; returns the first position where `validZlibPair`
holds, `none` when the loop ends with `found == -1`.  The first argument is
fuel, kept at least `stop - off` by the caller (the loop spans at most 32
positions); structural recursion on the fuel keeps it kernel-reducible. -/
def zlibScanLoop (block : Bytes) : Nat → Nat → Nat → Option Nat
  | 0, _, _ => none
  | fuel + 1, off, stop =>
    if off < stop then
      if validZlibPair block off then some off
      else zlibScanLoop block fuel (off + 1) stop
    else none

inductive CandType
  | gzip
  | zlib
deriving DecidableEq, Repr

/-- The candidate search of the recovery scan (source lines 115-137) on an
in-memory block: gzip magic `1F 8B` first; otherwise, from the first `0x78`,
scan at most 32 positions forward for a valid zlib pair. -/
def scanBlockCandidate (block : Bytes) : Option (Nat × CandType) :=
  match findSub [0x1f, 0x8b] block with
  | some g => some (g, CandType.gzip)
  | none =>
    match findSub [0x78] block with
    | some z =>
      match zlibScanLoop block 32 z (min (z + 32) block.length) with
      | some f => some (f, CandType.zlib)
      | none => none
    | none => none

/-- `scan_start = max(start, 4096)` — never scan into the header region. -/
def scan_start_of (start : Nat) : Nat := max start 4096

/-- `scan_end = min(file_end, scan_start + SCAN_LIMIT)` with
`SCAN_LIMIT = 4 * 1024 * 1024`. -/
def scan_end_of (file : Bytes) (start : Nat) : Nat :=
  min file.length (scan_start_of start + 4194304)

/-- The block read by the recovery scan:
`f.seek(scan_start); f.read(scan_end - scan_start)`. -/
def scanBlock (file : Bytes) (start : Nat) : Bytes :=
  readAt file (scan_start_of start) (scan_end_of file start - scan_start_of start)

/-- The recovery scan candidate as an absolute file position:
`candidate_pos = scan_start + <position in block>`, with its tag. -/
def recoveryCandidate (file : Bytes) (start : Nat) : Option (Nat × CandType) :=
  (scanBlockCandidate (scanBlock file start)).map
    (fun pc => (scan_start_of start + pc.1, pc.2))

/-- The result dictionary built by `extract_chunk_raw_from_region`.
`none` in an `Option` field models the dictionary key being absent (or set
to Python `None`, which the consumers treat identically via `.get`). -/
structure ExtractResult where
  found : Bool := false
  offset_sector : Option Nat := none
  sector_count : Option Nat := none
  length : Option Nat := none
  compression : Option Nat := none
  compressed_bytes : Option Bytes := none
  raw_sector_data : Option Bytes := none
  decompressed_bytes : Option Bytes := none
  errors : List String := []
deriving DecidableEq, Repr

/-- Recovery phase of `extract_chunk_raw_from_region` (source lines
106-156): scan the window for a compression signature; on a candidate, read
up to 8 MiB from it and try the matching decompressor.  The exception text
interpolated into the Python message `"Decompression from candidate failed:
{e}"` comes from the external library and is abstracted away here. -/
def recoveryPhase (gz zl : Bytes → Option Bytes) (file : Bytes) (start : Nat)
    (res : ExtractResult) (reads : List (Nat × Nat)) :
    ExtractResult × List (Nat × Nat) :=
  let scan_start := scan_start_of start
  let scan_end := scan_end_of file start
  let reads1 := reads ++ [(scan_start, scan_end - scan_start)]
  match recoveryCandidate file start with
  | some (candidate_pos, ct) =>
    let ctStr := match ct with | CandType.gzip => "gzip" | CandType.zlib => "zlib"
    let res1 := { res with errors := res.errors ++
      [s!"Could not read by header; found candidate compressed stream at file offset {candidate_pos} ({ctStr}). Will try to extract."] }
    let tailLen := min 8388608 (file.length - candidate_pos)
    let tailBytes := readAt file candidate_pos tailLen
    let reads2 := reads1 ++ [(candidate_pos, tailLen)]
    (match ct with
     | CandType.gzip =>
       match gz tailBytes with
       | some dec =>
         ({ res1 with
             found := true
             compression := some 1
             compressed_bytes := some tailBytes
             decompressed_bytes := some dec }, reads2)
       | none =>
         ({ res1 with errors := res1.errors ++ ["Decompression from candidate failed."] }, reads2)
     | CandType.zlib =>
       match zl tailBytes with
       | some dec =>
         ({ res1 with
             found := true
             compression := some 2
             compressed_bytes := some tailBytes
             decompressed_bytes := some dec }, reads2)
       | none =>
         ({ res1 with errors := res1.errors ++ ["Decompression from candidate failed."] }, reads2))
  | none =>
    ({ res with errors := res.errors ++ ["No gzip/zlib header found during scan."] }, reads1)

/-- Source lines 73-156: the standard-format read at byte offset `start`
(4-byte big-endian length, then that many bytes: compression tag plus
payload), falling through to the recovery phase when it does not produce a
clean success. -/
def standardThenRecover (gz zl : Bytes → Option Bytes) (file : Bytes)
    (start : Nat) (res : ExtractResult) (reads : List (Nat × Nat)) :
    ExtractResult × List (Nat × Nat) :=
  let total_size := file.length
  let res0 :=
    if total_size ≤ start then
      { res with errors := res.errors ++
        [s!"Offset points beyond file (start={start}, file={total_size})."] }
    else res
  let raw_head := readAt file start 4
  let reads1 := reads ++ [(start, 4)]
  if raw_head.length < 4 then
    recoveryPhase gz zl file start
      { res0 with errors := res0.errors ++ ["Couldn\x27t read length header (short read)."] }
      reads1
  else
    let length := beU32 raw_head
    let compressed := readAt file (start + 4) length
    let reads2 := reads1 ++ [(start + 4, length)]
    if compressed.length < length then
      let clen := compressed.length
      recoveryPhase gz zl file start
        { res0 with errors := res0.errors ++
          [s!"Chunk length {length} but only read {clen} bytes."] }
        reads2
    else
      let comp_type := if 0 < compressed.length then some (compressed.getD 0 0) else none
      let payload := if 1 < compressed.length then compressed.drop 1 else []
      ({ res0 with
          found := true
          length := some length
          compression := comp_type
          compressed_bytes := some payload
          raw_sector_data := some (raw_head ++ compressed) }, reads2)

/-- `extract_chunk_raw_from_region(path, cx, cz)`: header decode, entry
lookup, then standard read with recovery fallback.  A header shorter than
8192 bytes raises `IOError("Region header too short")`, caught by the outer
handler and recorded as `"IO error opening region: <message>"`. -/
def extract_chunk_raw_from_region (gz zl : Bytes → Option Bytes)
    (file : Bytes) (cx cz : Int) : ExtractResult × List (Nat × Nat) :=
  let reads : List (Nat × Nat) := [(0, 8192)]
  match read_region_header file with
  | none =>
    ({ errors := ["IO error opening region: Region header too short"] }, reads)
  | some offsets =>
    let idx := (chunk_index cx cz).toNat
    let entry := offsets.getD idx 0
    let offset_sector := entry >>> 8
    let sector_count := entry &&& 255
    let res : ExtractResult :=
      { offset_sector := some offset_sector, sector_count := some sector_count }
    if offset_sector = 0 then
      ({ res with errors := ["Chunk not present (offset 0)."] }, reads)
    else
      standardThenRecover gz zl file (offset_sector * 4096) res reads

inductive DispatchOutcome
  | ok (compType : Nat) (decompressed : Bytes)
  | savedCompressedArtifact
deriving DecidableEq, Repr

/-- Last-resort re-scan of the raw sector block in `main` (source lines
263-288): find `1F 8B`, else a bare `0x78` (no second-byte check here), and
try the matching decompressor on the slice from that position to the end. -/
def rawScanRecover (gz zl : Bytes → Option Bytes) (raw : Option Bytes) :
    Option (Nat × Bytes) :=
  match raw with
  | some r =>
    if r = [] then none
    else
      match findSub [0x1f, 0x8b] r with
      | some g =>
        match gz (r.drop g) with
        | some d => some (1, d)
        | none => none
      | none =>
        match findSub [0x78] r with
        | some zp =>
          match zl (r.drop zp) with
          | some d => some (2, d)
          | none => none
        | none => none
  | none => none

/-- Terminal part of the dispatcher after the first attempt raised: either a
recovery from the raw sector block succeeds, or the raw compressed bytes are
saved to `<out>.chunk_compressed.bin` and `main` returns. -/
def rawFallbackOutcome (gz zl : Bytes → Option Bytes) (raw : Option Bytes) :
    DispatchOutcome :=
  match rawScanRecover gz zl raw with
  | some (ct, d) => DispatchOutcome.ok ct d
  | none => DispatchOutcome.savedCompressedArtifact

/-- Decompression dispatch of `main` (source lines 244-297): tag 1 tries
gzip, tag 2 tries zlib, any other tag tries gzip then zlib; a raised
exception lands in the handler that re-scans the raw sector block; total
failure saves the compressed bytes as a side artifact and returns. -/
def mainDispatch (gz zl : Bytes → Option Bytes) (comp_type : Option Nat)
    (compressed : Bytes) (raw_sector_data : Option Bytes) : DispatchOutcome :=
  let firstTry : Option (Nat × Bytes) :=
    match comp_type with
    | some 1 => (gz compressed).map (fun d => (1, d))
    | some 2 => (zl compressed).map (fun d => (2, d))
    | _ =>
      match gz compressed with
      | some d => some (1, d)
      | none => (zl compressed).map (fun d => (2, d))
  match firstTry with
  | some (ct, d) => DispatchOutcome.ok ct d
  | none => rawFallbackOutcome gz zl raw_sector_data

inductive Artifact
  | outJson
  | rawNbt
  | compressedBin
  | decompressedNbt
deriving DecidableEq, Repr

/-- Files written by `main` after extraction, as a function of the
extraction result: the NBT library is abstracted as `parseOk` (whether
`parse_nbt_bytes` returns without raising), `rawNbtOut` is whether
`--raw-nbt-out` was given.  Mirrors source lines 214-239 (not-found path)
and 241-322 (found path). -/
def mainArtifacts (gz zl : Bytes → Option Bytes) (parseOk : Bytes → Bool)
    (rawNbtOut : Bool) (info : ExtractResult) : List Artifact :=
  if info.found = false then
    match info.decompressed_bytes with
    | some d =>
      if parseOk d then
        [Artifact.outJson] ++ (if rawNbtOut then [Artifact.rawNbt] else [])
      else if rawNbtOut then [Artifact.rawNbt] else []
    | none => []
  else
    match mainDispatch gz zl info.compression (info.compressed_bytes.getD [])
        info.raw_sector_data with
    | DispatchOutcome.savedCompressedArtifact => [Artifact.compressedBin]
    | DispatchOutcome.ok _ d =>
      if parseOk d then
        [Artifact.outJson] ++ (if rawNbtOut then [Artifact.rawNbt] else [])
      else if rawNbtOut then [Artifact.rawNbt] else [Artifact.decompressedNbt]

/-! ## Concrete inputs used by witnesses and counterexamples -/

/-- Oracle modelling a decompressor that always raises. -/
def oracleFail : Bytes → Option Bytes := fun _ => none

/-- Oracle modelling a decompressor that always succeeds, returning `[7]`. -/
def oracleSeven : Bytes → Option Bytes := fun _ => some [7]

/-- A scan window whose first `0x78` (position 0) is not followed by a zlib
flag byte, and whose only valid zlib pair sits at position 40, more than 32
bytes later. -/
def c2Block : Bytes := [0x78, 0] ++ List.replicate 38 0 ++ [0x78, 0x9c]

/-- An 8192-byte container header whose slot-0 location record holds the
four given bytes and whose remaining records (and timestamps) are zero. -/
def slotHeader (a b c d : Nat) : Bytes := [a, b, c, d] ++ List.replicate 8188 0

/-- A container whose slot-0 entry declares sector 2 with a payload length
of 10, but only 3 payload bytes exist after the length header, and the scan
window holds no compression signature. -/
def c3file : Bytes := slotHeader 0 0 2 1 ++ [0, 0, 0, 10, 5, 6, 7]

/-- A header-only container: all 1024 location records are zero.  (Written
with an empty payload so the shared `slotHeader` lemmas apply.) -/
def c8file : Bytes := slotHeader 0 0 0 0 ++ []

/-- A container whose slot-0 entry declares sector 2, where the 4-byte
length header reads as zero. -/
def c10file : Bytes := slotHeader 0 0 2 1 ++ [0, 0, 0, 0]

/-- A file whose scan window (for `start = 0`) begins right after the header
region and contains a gzip magic at its first byte. -/
def c5file : Bytes := List.replicate 4096 0 ++ [0x1f, 0x8b]

/-! ## Supporting lemmas -/

theorem readAt_length (file : Bytes) (pos n : Nat) :
    (readAt file pos n).length = min n (file.length - pos) := by
  simp [readAt]

theorem read_region_header_eq_some (file : Bytes) (h : 8192 ≤ file.length) :
    read_region_header file = some (regionOffsets file) := by
  unfold read_region_header
  rw [if_neg]
  rw [readAt_length]
  omega

theorem slotHeader_length (a b c d : Nat) : (slotHeader a b c d).length = 8192 := by
  unfold slotHeader
  rw [List.length_append, List.length_replicate]
  rfl

/-- The index-0 location record is the big-endian decode of the header's
first four bytes. -/
theorem regionOffsets_getD_zero (file : Bytes) :
    (regionOffsets file).getD 0 0 = beU32 (readAt (readAt file 0 8192) 0 4) := by
  show ((List.range 1024).map
    (fun i => beU32 (readAt (readAt file 0 8192) (i * 4) 4))).getD 0 0 = _
  rw [show (1024 : Nat) = 1023 + 1 from rfl, List.range_succ_eq_map, List.map_cons]
  rfl

theorem slotFile_take_header (a b c d : Nat) (rest : Bytes) :
    readAt (slotHeader a b c d ++ rest) 0 8192 = slotHeader a b c d := by
  unfold readAt
  rw [List.drop_zero, List.take_left' (slotHeader_length a b c d)]

theorem slotFile_drop_header (a b c d : Nat) (rest : Bytes) :
    List.drop 8192 (slotHeader a b c d ++ rest) = rest :=
  List.drop_left' (slotHeader_length a b c d)

theorem slotFile_length (a b c d : Nat) (rest : Bytes) :
    (slotHeader a b c d ++ rest).length = 8192 + rest.length := by
  rw [List.length_append, slotHeader_length]

/-- Reading at an offset past the header lands in the payload. -/
theorem slotFile_readAt (a b c d k n : Nat) (rest : Bytes) :
    readAt (slotHeader a b c d ++ rest) (8192 + k) n = readAt rest k n := by
  unfold readAt
  rw [← List.drop_drop, slotFile_drop_header]

/-- The index-0 location record of a `slotHeader` container is the decode of
the four slot bytes. -/
theorem slotFile_offsets_zero (a b c d : Nat) (rest : Bytes) :
    (regionOffsets (slotHeader a b c d ++ rest)).getD 0 0 = beU32 [a, b, c, d] := by
  rw [regionOffsets_getD_zero, slotFile_take_header]
  unfold readAt slotHeader
  rw [List.drop_zero]
  exact congrArg beU32 (List.take_left' (by simp))

/-- When a valid zlib pair sits at `p`, no earlier position at or past `off`
holds one, `p` is inside the loop range and the fuel covers the range, the
scan loop stops at `p`. -/
theorem zlibScanLoop_first (block : Bytes) (p : Nat)
    (hv : validZlibPair block p = true) :
    ∀ fuel off stop, off ≤ p → p < stop → stop ≤ off + fuel →
    (∀ q, off ≤ q → q < p → validZlibPair block q = false) →
    zlibScanLoop block fuel off stop = some p := by
  intro fuel
  induction fuel with
  | zero =>
    intro off stop h1 h2 h3 _
    exfalso
    omega
  | succ n ih =>
    intro off stop h1 h2 h3 hmin
    unfold zlibScanLoop
    rw [if_pos (by omega)]
    by_cases hoff : off = p
    · subst hoff
      rw [if_pos hv]
    · have h0 : validZlibPair block off = false := hmin off le_rfl (by omega)
      rw [if_neg (by simp [h0])]
      exact ih (off + 1) stop (by omega) h2 (by omega)
        (fun q hq1 hq2 => hmin q (by omega) hq2)

/-! ## Claims -/

/-- C7: for all signed coordinates and all integers `k, m`, the table index
function is periodic: `chunk_index (x + 32*k) (z + 32*m) = chunk_index x z`,
where the index is `(x mod 32) + (z mod 32) * 32` with nonnegative modulo. -/
theorem c7_index_periodicity (x z k m : Int) :
    chunk_index (x + 32 * k) (z + 32 * m) = chunk_index x z := by
  unfold chunk_index
  rw [Int.add_mul_emod_self_left, Int.add_mul_emod_self_left]

/-- C9: for every pair of signed integers, including negatives,
`chunk_index` lands in `[0, 1023]`, so indexing the 1024-entry location
table never fails. -/
theorem c9_index_range (cx cz : Int) :
    0 ≤ chunk_index cx cz ∧ chunk_index cx cz < 1024 ∧
    (chunk_index cx cz).toNat < 1024 := by
  unfold chunk_index
  omega

/-- C6: whenever the gzip magic `1F 8B` occurs anywhere in the scan window,
the recovery scan selects the gzip candidate at its position, regardless of
any zlib pair elsewhere (in particular one at an earlier offset). -/
theorem c6_gzip_priority (block : Bytes) (g : Nat)
    (h : findSub [0x1f, 0x8b] block = some g) :
    scanBlockCandidate block = some (g, CandType.gzip) := by
  unfold scanBlockCandidate
  rw [h]

/-- Witness for C6: a window with a valid zlib pair at position 0 and the
gzip magic at position 2; the scanner picks the gzip candidate at 2. -/
theorem c6_witness :
    findSub [0x1f, 0x8b] [0x78, 0x9c, 0x1f, 0x8b] = some 2 ∧
    validZlibPair [0x78, 0x9c, 0x1f, 0x8b] 0 = true ∧
    scanBlockCandidate [0x78, 0x9c, 0x1f, 0x8b] = some (2, CandType.gzip) :=
  ⟨by decide, by decide, c6_gzip_priority [0x78, 0x9c, 0x1f, 0x8b] 2 (by decide)⟩

/-- C5: a recovery-scan candidate position is never below
`max start 4096`, and every byte position touched by the scan read lies
strictly below `min file_size (scan_start + 4 MiB)`. -/
theorem c5_scan_bounds (file : Bytes) (start p : Nat) (t : CandType)
    (h : recoveryCandidate file start = some (p, t)) :
    max start 4096 ≤ p ∧
    (∀ i, i < (scanBlock file start).length →
      scan_start_of start + i < min file.length (scan_start_of start + 4194304)) := by
  constructor
  · unfold recoveryCandidate at h
    rcases Option.map_eq_some'.mp h with ⟨⟨rel, ct⟩, _, heq⟩
    have hp : scan_start_of start + rel = p := congrArg Prod.fst heq
    unfold scan_start_of at hp
    omega
  · intro i hi
    unfold scanBlock at hi
    rw [readAt_length] at hi
    simp only [scan_end_of, scan_start_of] at hi ⊢
    omega

theorem c5file_length : c5file.length = 4098 := by
  unfold c5file
  rw [List.length_append, List.length_replicate]
  rfl

theorem c5file_block : scanBlock c5file 0 = [0x1f, 0x8b] := by
  unfold scanBlock scan_end_of scan_start_of readAt
  rw [c5file_length]
  norm_num
  unfold c5file
  rw [List.drop_left' (List.length_replicate 4096 0)]
  rfl

theorem c5file_candidate : recoveryCandidate c5file 0 = some (4096, CandType.gzip) := by
  unfold recoveryCandidate
  rw [c5file_block]
  rfl

/-- Witness for C5: concrete file and start where the scan finds a gzip
candidate at position 4096. -/
theorem c5_witness :
    max 0 4096 ≤ 4096 ∧
    scan_start_of 0 + 1 < min c5file.length (scan_start_of 0 + 4194304) :=
  ⟨(c5_scan_bounds c5file 0 4096 CandType.gzip c5file_candidate).1,
   (c5_scan_bounds c5file 0 4096 CandType.gzip c5file_candidate).2 1
     (by rw [c5file_block]; decide)⟩

/-- C4: a container smaller than 8192 bytes makes the extraction abort at
once: the result carries only the header-too-short diagnostic, with no
entry-level fields (`offset_sector`, `sector_count`, ...) set, and the only
read is the header read. -/
theorem c4_header_truncated_abort (gz zl : Bytes → Option Bytes)
    (file : Bytes) (cx cz : Int) (h : file.length < 8192) :
    extract_chunk_raw_from_region gz zl file cx cz =
      ({ errors := ["IO error opening region: Region header too short"] },
       [(0, 8192)]) := by
  unfold extract_chunk_raw_from_region
  have hl : read_region_header file = none := by
    unfold read_region_header
    rw [if_pos]
    rw [readAt_length]
    omega
  rw [hl]

/-- Witness for C4: a 3-byte file. -/
theorem c4_witness :
    extract_chunk_raw_from_region oracleFail oracleFail [0, 1, 2] 0 0 =
      ({ errors := ["IO error opening region: Region header too short"] },
       [(0, 8192)]) :=
  c4_header_truncated_abort oracleFail oracleFail [0, 1, 2] 0 0 (by decide)

/-- C1 counterexample: with the method hint 1 (gzip), gzip failing, and a
zlib oracle that succeeds on the declared payload bytes, the dispatcher
still ends in the saved-artifact outcome: the alternate known method is
never attempted on those bytes (the raw sector block contains no signature,
so its re-scan cannot succeed either). -/
theorem c1_counterexample :
    oracleSeven [9, 9] = some [7] ∧
    oracleFail [9, 9] = none ∧
    mainDispatch oracleFail oracleSeven (some 1) [9, 9]
      (some [0, 0, 0, 2, 1, 9, 9]) = DispatchOutcome.savedCompressedArtifact := by
  refine ⟨rfl, rfl, ?_⟩
  decide

/-- C1 amended: for a known method hint (1 or 2) whose method fails on the
declared payload, the dispatcher proceeds directly to the raw-sector-block
re-scan outcome; the other known method is applied to the declared payload
only in the unknown-tag branch. -/
theorem c1_known_hint_skips_alternate (gz zl : Bytes → Option Bytes)
    (compressed : Bytes) (raw : Option Bytes)
    (h1 : gz compressed = none) (h2 : zl compressed = none) :
    mainDispatch gz zl (some 1) compressed raw = rawFallbackOutcome gz zl raw ∧
    mainDispatch gz zl (some 2) compressed raw = rawFallbackOutcome gz zl raw := by
  refine ⟨?_, ?_⟩
  · simp [mainDispatch, h1]
  · simp [mainDispatch, h2]

/-- Witness for C1 amended: both oracles fail on the payload `[9]`. -/
theorem c1_witness :
    mainDispatch oracleFail oracleFail (some 1) [9] (some [0, 0x78, 0x9c]) =
      rawFallbackOutcome oracleFail oracleFail (some [0, 0x78, 0x9c]) ∧
    mainDispatch oracleFail oracleFail (some 2) [9] (some [0, 0x78, 0x9c]) =
      rawFallbackOutcome oracleFail oracleFail (some [0, 0x78, 0x9c]) :=
  c1_known_hint_skips_alternate oracleFail oracleFail [9]
    (some [0, 0x78, 0x9c]) rfl rfl

/-- C2 counterexample: `c2Block` has no gzip magic and a valid zlib pair at
position 40, but because the only `0x78` before it sits at position 0 and
the pair lies beyond 32 bytes from it, the scanner returns no candidate at
all instead of the zlib candidate at 40. -/
theorem c2_counterexample :
    findSub [0x1f, 0x8b] c2Block = none ∧
    validZlibPair c2Block 40 = true ∧
    scanBlockCandidate c2Block = none := by
  decide

/-- C2 amended: when the window has no gzip magic, the scanner examines only
the 32 positions following the first `0x78` occurrence; within that
sub-window it returns the first position holding `0x78` followed by one of
`{0x9C, 0x01, 0xDA}` as the zlib candidate. -/
theorem c2_zlib_window_first_hit (block : Bytes) (z p : Nat)
    (hgz : findSub [0x1f, 0x8b] block = none)
    (hz : findSub [0x78] block = some z)
    (hzp : z ≤ p)
    (hlt : p < min (z + 32) block.length)
    (hv : validZlibPair block p = true)
    (hmin : ∀ q, z ≤ q → q < p → validZlibPair block q = false) :
    scanBlockCandidate block = some (p, CandType.zlib) := by
  unfold scanBlockCandidate
  rw [hgz, hz]
  show (match zlibScanLoop block 32 z (min (z + 32) block.length) with
        | some f => some (f, CandType.zlib)
        | none => none) = some (p, CandType.zlib)
  rw [zlibScanLoop_first block p hv 32 z (min (z + 32) block.length)
    hzp hlt (by omega) hmin]

/-- Witness for C2 amended: first `0x78` at position 1 (invalid pair), first
valid pair at position 3. -/
theorem c2_witness :
    scanBlockCandidate [0, 0x78, 0, 0x78, 0xda, 9] = some (3, CandType.zlib) :=
  c2_zlib_window_first_hit [0, 0x78, 0, 0x78, 0xda, 9] 1 3 (by decide) (by decide)
    (by decide) (by decide) (by decide)
    (by intro q h1 h2; interval_cases q <;> decide)

/-- When the header is complete and the located record decodes to a nonzero
sector offset, the extraction proceeds into the standard-read stage with the
entry fields recorded. -/
theorem extract_eq_standard (gz zl : Bytes → Option Bytes) (file : Bytes)
    (cx cz : Int) (hdr : 8192 ≤ file.length)
    (hnz : (regionOffsets file).getD (chunk_index cx cz).toNat 0 >>> 8 ≠ 0) :
    extract_chunk_raw_from_region gz zl file cx cz =
      standardThenRecover gz zl file
        ((regionOffsets file).getD (chunk_index cx cz).toNat 0 >>> 8 * 4096)
        { offset_sector :=
            some ((regionOffsets file).getD (chunk_index cx cz).toNat 0 >>> 8)
          sector_count :=
            some ((regionOffsets file).getD (chunk_index cx cz).toNat 0 &&& 255) }
        [(0, 8192)] := by
  unfold extract_chunk_raw_from_region
  split
  · next heq =>
    rw [read_region_header_eq_some file hdr] at heq
    cases heq
  · next offsets heq =>
    rw [read_region_header_eq_some file hdr] at heq
    injection heq with heq
    subst heq
    rw [if_neg hnz]

/-- When the located record decodes to a zero sector offset, extraction
returns the entry-absent result after only the header read. -/
theorem extract_eq_absent (gz zl : Bytes → Option Bytes) (file : Bytes)
    (cx cz : Int) (hdr : 8192 ≤ file.length)
    (hzero : (regionOffsets file).getD (chunk_index cx cz).toNat 0 = 0) :
    extract_chunk_raw_from_region gz zl file cx cz =
      ({ offset_sector := some 0, sector_count := some 0,
         errors := ["Chunk not present (offset 0)."] }, [(0, 8192)]) := by
  unfold extract_chunk_raw_from_region
  split
  · next heq =>
    rw [read_region_header_eq_some file hdr] at heq
    cases heq
  · next offsets heq =>
    rw [read_region_header_eq_some file hdr] at heq
    injection heq with heq
    subst heq
    simp only [List.getD_eq_getElem?_getD] at hzero
    simp [hzero]

/-- C8: with a complete header and a zero location record at the computed
index, extraction reports not-found with exactly the absent-entry
diagnostic, performs no read beyond the 8192-byte header, and `main` writes
no artifact for such a result. -/
theorem c8_absent_entry (gz zl : Bytes → Option Bytes) (parseOk : Bytes → Bool)
    (rawNbtOut : Bool) (file : Bytes) (cx cz : Int)
    (hdr : 8192 ≤ file.length)
    (hzero : (regionOffsets file).getD (chunk_index cx cz).toNat 0 = 0) :
    (extract_chunk_raw_from_region gz zl file cx cz).1.found = false ∧
    (extract_chunk_raw_from_region gz zl file cx cz).1.errors =
      ["Chunk not present (offset 0)."] ∧
    (extract_chunk_raw_from_region gz zl file cx cz).1.decompressed_bytes = none ∧
    (extract_chunk_raw_from_region gz zl file cx cz).2 = [(0, 8192)] ∧
    (∀ pr ∈ (extract_chunk_raw_from_region gz zl file cx cz).2,
      pr.1 + pr.2 ≤ 8192) ∧
    mainArtifacts gz zl parseOk rawNbtOut
      (extract_chunk_raw_from_region gz zl file cx cz).1 = [] := by
  rw [extract_eq_absent gz zl file cx cz hdr hzero]
  refine ⟨rfl, rfl, rfl, rfl, ?_, rfl⟩
  intro pr hpr
  simp only [List.mem_singleton] at hpr
  subst hpr
  decide

theorem c8file_offsets_zero :
    (regionOffsets c8file).getD (chunk_index 0 0).toNat 0 = 0 := by
  have hidx : (chunk_index 0 0).toNat = 0 := by decide
  rw [hidx]
  unfold c8file
  rw [slotFile_offsets_zero]
  rfl

/-- Witness for C8: the all-zero header-only container at slot (0, 0). -/
theorem c8_witness :
    (extract_chunk_raw_from_region oracleFail oracleFail c8file 0 0).1.found = false ∧
    (extract_chunk_raw_from_region oracleFail oracleFail c8file 0 0).1.errors =
      ["Chunk not present (offset 0)."] ∧
    (extract_chunk_raw_from_region oracleFail oracleFail c8file 0 0).1.decompressed_bytes = none ∧
    (extract_chunk_raw_from_region oracleFail oracleFail c8file 0 0).2 = [(0, 8192)] ∧
    (∀ pr ∈ (extract_chunk_raw_from_region oracleFail oracleFail c8file 0 0).2,
      pr.1 + pr.2 ≤ 8192) ∧
    mainArtifacts oracleFail oracleFail (fun _ => true) false
      (extract_chunk_raw_from_region oracleFail oracleFail c8file 0 0).1 = [] :=
  c8_absent_entry oracleFail oracleFail (fun _ => true) false c8file 0 0
    (by unfold c8file; rw [slotFile_length]; omega)
    c8file_offsets_zero

/-- When the 4-byte length header reads fully and decodes to zero, the
standard read succeeds at once with an empty payload and no compression
tag. -/
theorem standardThenRecover_zero_length (gz zl : Bytes → Option Bytes)
    (file : Bytes) (start : Nat) (res : ExtractResult) (reads : List (Nat × Nat))
    (hhead : readAt file start 4 = [0, 0, 0, 0]) :
    standardThenRecover gz zl file start res reads =
      ({ res with
          found := true
          length := some 0
          compression := none
          compressed_bytes := some []
          raw_sector_data := some [0, 0, 0, 0] },
       (reads ++ [(start, 4)]) ++ [(start + 4, 0)]) := by
  have hlen4 : (readAt file start 4).length = 4 := by rw [hhead]; rfl
  have hstart : ¬ (file.length ≤ start) := by
    rw [readAt_length] at hlen4
    omega
  simp only [standardThenRecover, if_neg hstart, hhead]
  norm_num [beU32, readAt]

/-- C10: a fully-read zero declared length is a success: `found` is true,
the compression tag is absent, the payload is empty, the raw sector block is
the 4 header bytes, and no diagnostic is recorded. -/
theorem c10_zero_length_success (gz zl : Bytes → Option Bytes) (file : Bytes)
    (cx cz : Int)
    (hdr : 8192 ≤ file.length)
    (hnz : (regionOffsets file).getD (chunk_index cx cz).toNat 0 >>> 8 ≠ 0)
    (hhead : readAt file
        ((regionOffsets file).getD (chunk_index cx cz).toNat 0 >>> 8 * 4096) 4 =
      [0, 0, 0, 0]) :
    (extract_chunk_raw_from_region gz zl file cx cz).1.found = true ∧
    (extract_chunk_raw_from_region gz zl file cx cz).1.length = some 0 ∧
    (extract_chunk_raw_from_region gz zl file cx cz).1.compression = none ∧
    (extract_chunk_raw_from_region gz zl file cx cz).1.compressed_bytes = some [] ∧
    (extract_chunk_raw_from_region gz zl file cx cz).1.raw_sector_data =
      some [0, 0, 0, 0] ∧
    (extract_chunk_raw_from_region gz zl file cx cz).1.errors = [] := by
  rw [extract_eq_standard gz zl file cx cz hdr hnz,
    standardThenRecover_zero_length gz zl file _ _ _ hhead]
  exact ⟨rfl, rfl, rfl, rfl, rfl, rfl⟩

theorem c10file_offsets_zero :
    (regionOffsets c10file).getD (chunk_index 0 0).toNat 0 = 513 := by
  have hidx : (chunk_index 0 0).toNat = 0 := by decide
  rw [hidx]
  unfold c10file
  rw [slotFile_offsets_zero]
  rfl

theorem c10file_head : readAt c10file
    ((regionOffsets c10file).getD (chunk_index 0 0).toNat 0 >>> 8 * 4096) 4 =
    [0, 0, 0, 0] := by
  rw [c10file_offsets_zero]
  show readAt c10file (8192 + 0) 4 = [0, 0, 0, 0]
  unfold c10file
  rw [slotFile_readAt]
  rfl

/-- Witness for C10: a concrete container whose slot-0 sector starts with a
zero length field. -/
theorem c10_witness :
    (extract_chunk_raw_from_region oracleFail oracleFail c10file 0 0).1.found = true ∧
    (extract_chunk_raw_from_region oracleFail oracleFail c10file 0 0).1.length = some 0 ∧
    (extract_chunk_raw_from_region oracleFail oracleFail c10file 0 0).1.compression = none ∧
    (extract_chunk_raw_from_region oracleFail oracleFail c10file 0 0).1.compressed_bytes = some [] ∧
    (extract_chunk_raw_from_region oracleFail oracleFail c10file 0 0).1.raw_sector_data =
      some [0, 0, 0, 0] ∧
    (extract_chunk_raw_from_region oracleFail oracleFail c10file 0 0).1.errors = [] :=
  c10_zero_length_success oracleFail oracleFail c10file 0 0
    (by unfold c10file; rw [slotFile_length]; omega)
    (by rw [c10file_offsets_zero]; decide)
    c10file_head

/-- With no candidate in the scan window, the recovery phase only appends
the no-header diagnostic and the scan read. -/
theorem recoveryPhase_no_candidate (gz zl : Bytes → Option Bytes) (file : Bytes)
    (start : Nat) (res : ExtractResult) (reads : List (Nat × Nat))
    (h : recoveryCandidate file start = none) :
    recoveryPhase gz zl file start res reads =
      ({ res with errors := res.errors ++ ["No gzip/zlib header found during scan."] },
       reads ++ [(scan_start_of start,
         scan_end_of file start - scan_start_of start)]) := by
  simp only [recoveryPhase, h]

/-- A complete length header declaring more bytes than remain, with no scan
candidate: the mismatch diagnostic and the no-header diagnostic are
appended, everything else in the result is left unchanged. -/
theorem standardThenRecover_short_read (gz zl : Bytes → Option Bytes)
    (file : Bytes) (start : Nat) (res0 : ExtractResult) (reads0 : List (Nat × Nat))
    (L A : Nat)
    (h4 : (readAt file start 4).length = 4)
    (hL : L = beU32 (readAt file start 4))
    (hA : A = (readAt file (start + 4) L).length)
    (hshort : A < L)
    (hnocand : recoveryCandidate file start = none) :
    standardThenRecover gz zl file start res0 reads0 =
      ({ res0 with errors := (res0.errors ++
          [s!"Chunk length {L} but only read {A} bytes."]) ++
          ["No gzip/zlib header found during scan."] },
       ((reads0 ++ [(start, 4)]) ++ [(start + 4, L)]) ++
         [(scan_start_of start, scan_end_of file start - scan_start_of start)]) := by
  have hstart : ¬ (file.length ≤ start) := by
    rw [readAt_length] at h4
    omega
  simp only [standardThenRecover, if_neg hstart]
  rw [← hL, ← hA,
    if_neg (show ¬ (readAt file start 4).length < 4 from by rw [h4]; omega),
    if_pos hshort,
    recoveryPhase_no_candidate gz zl file start _ _ hnocand]

/-- C3 (corrected): whenever the payload reader reads fewer than the
declared `L` bytes, the diagnostic names both the declared and the actual
count, `found` stays false and recovery scanning follows — but the
partially-read bytes themselves are discarded, not kept in the result.
(Stated here for the case where the scan finds no candidate, as in the
counterexample.) -/
theorem c3_short_read_discards_partial (gz zl : Bytes → Option Bytes)
    (file : Bytes) (start : Nat) (res0 : ExtractResult) (reads0 : List (Nat × Nat))
    (L A : Nat)
    (h4 : (readAt file start 4).length = 4)
    (hL : L = beU32 (readAt file start 4))
    (hA : A = (readAt file (start + 4) L).length)
    (hshort : A < L)
    (hnocand : recoveryCandidate file start = none) :
    (standardThenRecover gz zl file start res0 reads0).1.found = res0.found ∧
    (standardThenRecover gz zl file start res0 reads0).1.compressed_bytes =
      res0.compressed_bytes ∧
    (standardThenRecover gz zl file start res0 reads0).1.raw_sector_data =
      res0.raw_sector_data ∧
    (standardThenRecover gz zl file start res0 reads0).1.errors =
      res0.errors ++ [s!"Chunk length {L} but only read {A} bytes.",
        "No gzip/zlib header found during scan."] := by
  rw [standardThenRecover_short_read gz zl file start res0 reads0 L A h4 hL hA
    hshort hnocand]
  refine ⟨rfl, rfl, rfl, ?_⟩
  simp [List.append_assoc]

theorem c3file_length : c3file.length = 8199 := by
  unfold c3file
  rw [slotFile_length]
  rfl

theorem c3file_offsets_zero :
    (regionOffsets c3file).getD (chunk_index 0 0).toNat 0 = 513 := by
  have hidx : (chunk_index 0 0).toNat = 0 := by decide
  rw [hidx]
  unfold c3file
  rw [slotFile_offsets_zero]
  rfl

theorem c3file_head : readAt c3file 8192 4 = [0, 0, 0, 10] := by
  show readAt c3file (8192 + 0) 4 = [0, 0, 0, 10]
  unfold c3file
  rw [slotFile_readAt]
  rfl

theorem c3file_payload : readAt c3file (8192 + 4) 10 = [5, 6, 7] := by
  unfold c3file
  rw [slotFile_readAt]
  rfl

theorem c3file_no_candidate : recoveryCandidate c3file 8192 = none := by
  have hblock : scanBlock c3file 8192 = [0, 0, 0, 10, 5, 6, 7] := by
    unfold scanBlock scan_end_of scan_start_of
    rw [c3file_length]
    norm_num
    show readAt c3file (8192 + 0) 7 = _
    unfold c3file
    rw [slotFile_readAt]
    rfl
  unfold recoveryCandidate
  rw [hblock]
  rfl

/-- C3 counterexample: on `c3file` the short read (3 of 10 declared bytes)
records the mismatch diagnostic, but the partially-read bytes survive
nowhere in the result — `compressed_bytes` and `raw_sector_data` are absent,
so nothing is available downstream for a partial decode. -/
theorem c3_counterexample :
    (extract_chunk_raw_from_region oracleFail oracleFail c3file 0 0).1.errors =
      ["Chunk length 10 but only read 3 bytes.",
       "No gzip/zlib header found during scan."] ∧
    (extract_chunk_raw_from_region oracleFail oracleFail c3file 0 0).1.compressed_bytes =
      none ∧
    (extract_chunk_raw_from_region oracleFail oracleFail c3file 0 0).1.raw_sector_data =
      none ∧
    (extract_chunk_raw_from_region oracleFail oracleFail c3file 0 0).1.decompressed_bytes =
      none ∧
    (extract_chunk_raw_from_region oracleFail oracleFail c3file 0 0).1.found = false := by
  have hnz : (regionOffsets c3file).getD (chunk_index 0 0).toNat 0 >>> 8 ≠ 0 := by
    rw [c3file_offsets_zero]
    decide
  rw [extract_eq_standard oracleFail oracleFail c3file 0 0
    (by rw [c3file_length]; omega) hnz, c3file_offsets_zero]
  have h1 : (513 : Nat) >>> 8 * 4096 = 8192 := by decide
  have h2 : (513 : Nat) >>> 8 = 2 := by decide
  have h3 : (513 : Nat) &&& 255 = 1 := by decide
  rw [h1, h2, h3,
    standardThenRecover_short_read oracleFail oracleFail c3file 8192 _ _ 10 3
      (by rw [c3file_head]; rfl) (by rw [c3file_head]; rfl)
      (by rw [c3file_payload]; rfl) (by omega) c3file_no_candidate]
  refine ⟨?_, rfl, rfl, rfl, rfl⟩
  decide

/-- Witness for C3 (corrected): the concrete short-read container. -/
theorem c3_witness :
    (standardThenRecover oracleFail oracleFail c3file 8192 {} []).1.found =
      ({} : ExtractResult).found ∧
    (standardThenRecover oracleFail oracleFail c3file 8192 {} []).1.compressed_bytes =
      ({} : ExtractResult).compressed_bytes ∧
    (standardThenRecover oracleFail oracleFail c3file 8192 {} []).1.raw_sector_data =
      ({} : ExtractResult).raw_sector_data ∧
    (standardThenRecover oracleFail oracleFail c3file 8192 {} []).1.errors =
      ({} : ExtractResult).errors ++
        ["Chunk length 10 but only read 3 bytes.",
         "No gzip/zlib header found during scan."] :=
  c3_short_read_discards_partial oracleFail oracleFail c3file 8192 {} [] 10 3
    (by rw [c3file_head]; rfl) (by rw [c3file_head]; rfl)
    (by rw [c3file_payload]; rfl) (by omega) c3file_no_candidate
